import Mathlib

/-!
Shallow embedding of the revision-code decoding engine of `pirevision.c`.

A revision code is an unsigned 32-bit integer, modelled as a `Nat` (with an
explicit `< 2 ^ 32` bound where a statement is about 32-bit codes).  All
lookup tables, bit-field extractors, the legacy mapping table and the memory
formatting rule are translated directly from the C source.  The fatal
`exit(EXIT_FAILURE)` path of `map_old_to_new` is modelled by an `Except`
value carrying the error kind.
-/

namespace PiRevision

/-- The single fatal error kind of the decoding core: a code without the
new-style bit set that has no entry in the legacy mapping table. -/
inductive DecodeError where
  | UnknownLegacyCode
deriving DecidableEq, Repr

instance {ε α : Type} [DecidableEq ε] [DecidableEq α] : DecidableEq (Except ε α)
  | .error a, .error b =>
      if h : a = b then isTrue (by rw [h]) else isFalse (fun hh => by cases hh; exact h rfl)
  | .error _, .ok _ => isFalse (fun h => by cases h)
  | .ok _, .error _ => isFalse (fun h => by cases h)
  | .ok a, .ok b =>
      if h : a = b then isTrue (by rw [h]) else isFalse (fun hh => by cases hh; exact h rfl)

/-- Manufacturer bit pattern `SONY_UK` (`0 << 16`). -/
def SONY_UK : Nat := 0 <<< 16

/-- Manufacturer bit pattern `EGOMAN` (`1 << 16`). -/
def EGOMAN : Nat := 1 <<< 16

/-- Manufacturer bit pattern `EMBEST` (`2 << 16`). -/
def EMBEST : Nat := 2 <<< 16

/-- Manufacturer bit pattern `SONY_JAPAN` (`3 << 16`). -/
def SONY_JAPAN : Nat := 3 <<< 16

/-- Manufacturer bit pattern `STADIUM` (`5 << 16`). -/
def STADIUM : Nat := 5 <<< 16

/-- Manufacturer bit pattern `QISDA` (`0xF << 16`), the reserved index 15. -/
def QISDA : Nat := 0xF <<< 16

/-- Memory bit pattern `MEM_256M` (`0 << 20`). -/
def MEM_256M : Nat := 0 <<< 20

/-- Memory bit pattern `MEM_512M` (`1 << 20`). -/
def MEM_512M : Nat := 1 <<< 20

/-- Model bit pattern `MODEL_A` (`0 << 4`). -/
def MODEL_A : Nat := 0 <<< 4

/-- Model bit pattern `MODEL_B` (`1 << 4`). -/
def MODEL_B : Nat := 1 <<< 4

/-- Model bit pattern `MODEL_APLUS` (`2 << 4`). -/
def MODEL_APLUS : Nat := 2 <<< 4

/-- Model bit pattern `MODEL_BPLUS` (`3 << 4`). -/
def MODEL_BPLUS : Nat := 3 <<< 4

/-- Model bit pattern `MODEL_CM1` (`6 << 4`). -/
def MODEL_CM1 : Nat := 6 <<< 4

/-- Revision bit pattern `REV_1_0` (`0 << 0`). -/
def REV_1_0 : Nat := 0

/-- Revision bit pattern `REV_1_1`, defined as `0 << 0` in the source. -/
def REV_1_1 : Nat := 0

/-- Revision bit pattern `REV_1_2`, defined as `0 << 0` in the source. -/
def REV_1_2 : Nat := 0

/-- Revision bit pattern `REV_2_0` (`0xF << 0`), the reserved index 15. -/
def REV_2_0 : Nat := 0xF

/-- The sentinel marking an invalid legacy table slot (`0xFFFFFFFF`). -/
def OLD_REV_NOT_VALID : Nat := 0xFFFFFFFF

/-- `lut_to_str_with_invalid`: bounds-checked table lookup with an optional
reserved-index substitute string; out-of-range indices other than the
reserved one resolve to the generic marker `"???"`. -/
def lut_to_str_with_invalid (lut : List String) (index : Nat)
    (invalid_index : Nat) (invalid_index_str : Option String) : String :=
  if index < lut.length then lut.getD index "???"
  else
    match invalid_index_str with
    | some s => if index = invalid_index then s else "???"
    | none => "???"

/-- `lut_to_str`: bounds-checked table lookup with no reserved-index
substitution. -/
def lut_to_str (lut : List String) (index : Nat) : String :=
  lut_to_str_with_invalid lut index 0 none

/-- `overvoltage_allowed`: bit 31, with 0 meaning allowed. -/
def overvoltage_allowed (revision_code : Nat) : Bool :=
  (revision_code >>> 31) &&& 0x1 == 0

/-- `overvoltage_allowed_str`. -/
def overvoltage_allowed_str (revision_code : Nat) : String :=
  if overvoltage_allowed revision_code then "Allowed" else "Disallowed"

/-- `otp_programming_allowed`: bit 30, with 0 meaning allowed. -/
def otp_programming_allowed (revision_code : Nat) : Bool :=
  (revision_code >>> 30) &&& 0x1 == 0

/-- `otp_reading_allowed`: bit 29, with 0 meaning allowed. -/
def otp_reading_allowed (revision_code : Nat) : Bool :=
  (revision_code >>> 29) &&& 0x1 == 0

/-- `otp_programming_allowed_str`. -/
def otp_programming_allowed_str (revision_code : Nat) : String :=
  if otp_programming_allowed revision_code then "Allowed" else "Disallowed"

/-- `otp_reading_allowed_str`. -/
def otp_reading_allowed_str (revision_code : Nat) : String :=
  if otp_reading_allowed revision_code then "Allowed" else "Disallowed"

/-- `warranty_intact`: bit 25, with 0 meaning intact. -/
def warranty_intact (revision_code : Nat) : Bool :=
  (revision_code >>> 25) &&& 0x1 == 0

/-- `warranty_intact_str`. -/
def warranty_intact_str (revision_code : Nat) : String :=
  if warranty_intact revision_code then "Intact" else "Voided"

/-- `revision_new_style`: bit 23, with 1 meaning new style. -/
def revision_new_style (revision_code : Nat) : Bool :=
  (revision_code >>> 23) &&& 0x1 == 1

/-- `type_index`: the 8-bit field in bits 4-11. -/
def type_index (revision_code : Nat) : Nat :=
  (revision_code >>> 4) &&& 0xFF

/-- The `type_map` table of `type_str`. -/
def type_map : List String :=
  ["A", "B", "A+", "B+", "2B", "Alpha", "CM1", "0x07", "3B", "Zero", "CM3",
   "0x0B", "Zero W", "3B+", "3A+", "Internal use only", "CM3+", "4B",
   "Zero 2 W", "400", "CM4", "CM4S"]

/-- `type_str`: resolve the type index against `type_map`. -/
def type_str (revision_code : Nat) : String :=
  lut_to_str type_map (type_index revision_code)

/-- `physical_memory_index`: the 3-bit field in bits 20-22. -/
def physical_memory_index (revision_code : Nat) : Nat :=
  (revision_code >>> 20) &&& 0x7

/-- The `mem_mbytes_map` table of `physical_memory_mbytes`. -/
def mem_mbytes_map : List Nat :=
  [256, 512, 1 * 1024, 2 * 1024, 4 * 1024, 8 * 1024]

/-- `physical_memory_mbytes`: the source guards the table access with
`index > ARRAY_CNT(mem_mbytes_map)` and otherwise reads
`mem_mbytes_map[index]`.  For index 6 that read is one element past the end
of the table (undefined behaviour in C), modelled here as `none`; every
defined outcome is `some`. -/
def physical_memory_mbytes (revision_code : Nat) : Option Nat :=
  let index := physical_memory_index revision_code
  if index > mem_mbytes_map.length then some 0
  else mem_mbytes_map.get? index

/-- The formatting step of `physical_memory_str`: amounts of 1024 MB or more
are rendered in whole GB (at most four digits, otherwise the empty string),
smaller amounts in MB. -/
def format_memory (mega_bytes : Nat) : String :=
  if mega_bytes ≥ 1024 then
    let giga_bytes := mega_bytes >>> 10
    if giga_bytes ≤ 9999 then toString giga_bytes ++ "GB" else ""
  else toString mega_bytes ++ "MB"

/-- `physical_memory_str`: format the extracted megabyte amount; `none`
propagates the undefined table read of `physical_memory_mbytes`. -/
def physical_memory_str (revision_code : Nat) : Option String :=
  (physical_memory_mbytes revision_code).map format_memory

/-- `processor_index`: the 4-bit field in bits 12-15. -/
def processor_index (revision_code : Nat) : Nat :=
  (revision_code >>> 12) &&& 0xF

/-- The `processor_map` table of `processor_str`. -/
def processor_map : List String :=
  ["BCM2835", "BCM2836", "BCM2837", "BCM2711"]

/-- `processor_str`: resolve the processor index against `processor_map`. -/
def processor_str (revision_code : Nat) : String :=
  lut_to_str processor_map (processor_index revision_code)

/-- `manufacturer_index`: the 4-bit field in bits 16-19. -/
def manufacturer_index (revision_code : Nat) : Nat :=
  (revision_code >>> 16) &&& 0xF

/-- The `manufacturer_map` table of `manufacturer_str`. -/
def manufacturer_map : List String :=
  ["Sony UK", "Egoman", "Embest", "Sony Japan", "Embest", "Stadium"]

/-- `manufacturer_str`: resolve the manufacturer index against
`manufacturer_map`, with reserved index 15 substituting "Qisda". -/
def manufacturer_str (revision_code : Nat) : String :=
  lut_to_str_with_invalid manufacturer_map (manufacturer_index revision_code)
    (QISDA >>> 16) (some "Qisda")

/-- `revision_index`: the 4-bit field in bits 0-3. -/
def revision_index (revision_code : Nat) : Nat :=
  (revision_code >>> 0) &&& 0xF

/-- The `revision_map` table of `revision_str`. -/
def revision_map : List String :=
  ["1.0", "1.1", "1.2", "1.3", "1.4", "1.5"]

/-- `revision_str`: resolve the hardware-revision index against
`revision_map`, with reserved index 15 substituting "2.0". -/
def revision_str (revision_code : Nat) : String :=
  lut_to_str_with_invalid revision_map (revision_index revision_code)
    REV_2_0 (some "2.0")

/-- The `old_revision_map` table of `map_old_to_new`, one slot per legacy
code 0x0000 to 0x0015. -/
def old_revision_map : List Nat :=
  [OLD_REV_NOT_VALID,
   OLD_REV_NOT_VALID,
   MODEL_B ||| REV_1_0 ||| MEM_256M ||| EGOMAN,
   MODEL_B ||| REV_1_0 ||| MEM_256M ||| EGOMAN,
   MODEL_B ||| REV_2_0 ||| MEM_256M ||| SONY_UK,
   MODEL_B ||| REV_2_0 ||| MEM_256M ||| QISDA,
   MODEL_B ||| REV_2_0 ||| MEM_256M ||| EGOMAN,
   MODEL_A ||| REV_2_0 ||| MEM_256M ||| EGOMAN,
   MODEL_A ||| REV_2_0 ||| MEM_256M ||| SONY_UK,
   MODEL_A ||| REV_2_0 ||| MEM_256M ||| QISDA,
   OLD_REV_NOT_VALID,
   OLD_REV_NOT_VALID,
   OLD_REV_NOT_VALID,
   MODEL_B ||| REV_2_0 ||| MEM_512M ||| EGOMAN,
   MODEL_B ||| REV_2_0 ||| MEM_512M ||| SONY_UK,
   MODEL_B ||| REV_2_0 ||| MEM_512M ||| EGOMAN,
   MODEL_BPLUS ||| REV_1_2 ||| MEM_512M ||| SONY_UK,
   MODEL_CM1 ||| REV_1_0 ||| MEM_512M ||| SONY_UK,
   MODEL_APLUS ||| REV_1_1 ||| MEM_256M ||| SONY_UK,
   MODEL_BPLUS ||| REV_1_2 ||| MEM_512M ||| EMBEST,
   MODEL_CM1 ||| REV_1_0 ||| MEM_512M ||| EMBEST,
   MODEL_APLUS ||| REV_1_1 ||| MEM_256M ||| EMBEST]

/-- `map_old_to_new`: a code with the new-style bit set is returned
unchanged; otherwise the code is a direct index into `old_revision_map`,
with out-of-range indices and sentinel slots failing fatally. -/
def map_old_to_new (revision_code : Nat) : Except DecodeError Nat :=
  if revision_new_style revision_code then Except.ok revision_code
  else
    let new_revision_code :=
      if revision_code < old_revision_map.length then
        old_revision_map.getD revision_code OLD_REV_NOT_VALID
      else OLD_REV_NOT_VALID
    if new_revision_code = OLD_REV_NOT_VALID then
      Except.error DecodeError.UnknownLegacyCode
    else Except.ok new_revision_code

/-- The decoded output aggregate, mirroring the field set of the renderers:
the four permission flags and the processor are only populated for
new-style codes. -/
structure DecodedResult where
  style : String
  overvoltage_allowed : Option Bool
  otp_programming_allowed : Option Bool
  otp_reading_allowed : Option Bool
  warranty_intact : Option Bool
  type : String
  revision : String
  processor : Option String
  memory : Option String
  manufacturer : String
deriving DecidableEq, Repr

/-- The decoder facade: normalize via `map_old_to_new`, then populate every
field through the extractors and lookup tables, omitting the permission
flags and the processor for old-style codes as the renderers do. -/
def decode (revision_code : Nat) : Except DecodeError DecodedResult :=
  (map_old_to_new revision_code).map fun code =>
    let new_style := revision_new_style code
    { style := if new_style then "new" else "old"
      overvoltage_allowed :=
        if new_style then some (overvoltage_allowed code) else none
      otp_programming_allowed :=
        if new_style then some (otp_programming_allowed code) else none
      otp_reading_allowed :=
        if new_style then some (otp_reading_allowed code) else none
      warranty_intact :=
        if new_style then some (warranty_intact code) else none
      type := type_str code
      revision := revision_str code
      processor := if new_style then some (processor_str code) else none
      memory := physical_memory_str code
      manufacturer := manufacturer_str code }

/-- Modelled from the spec: the memory formatting rule of section 4.4,
stated with integer division by 1024 as the spec words it. -/
def format_memory_spec (mbytes : Nat) : String :=
  if mbytes ≥ 1024 then
    let gbytes := mbytes / 1024
    if gbytes ≤ 9999 then toString gbytes ++ "GB" else ""
  else toString mbytes ++ "MB"

lemma and_one_beq_one (x : Nat) : (x &&& 1 == 1) = decide (x % 2 = 1) := by
  rw [Nat.and_one_is_mod]
  rcases Nat.mod_two_eq_zero_or_one x with h | h <;> simp [h]

lemma and_one_beq_zero (x : Nat) : (x &&& 1 == 0) = decide (x % 2 = 0) := by
  rw [Nat.and_one_is_mod]
  rcases Nat.mod_two_eq_zero_or_one x with h | h <;> simp [h]

lemma revision_new_style_eq_testBit (c : Nat) :
    revision_new_style c = Nat.testBit c 23 := by
  rw [revision_new_style, and_one_beq_one, Nat.testBit_to_div_mod,
    Nat.shiftRight_eq_div_pow]

lemma physical_memory_index_lt_eight (c : Nat) : physical_memory_index c < 8 :=
  Nat.and_lt_two_pow _ (show 0x7 < 2 ^ 3 by norm_num)

/-- C1: for every 32-bit code with bit 23 set, `map_old_to_new` returns the
code unchanged; with bit 23 clear, it fails with `UnknownLegacyCode` exactly
when the code is out of the legacy table bounds or hits the not-valid
sentinel, and otherwise returns the mapped table entry. -/
theorem map_old_to_new_contract (c : Nat) (_hc : c < 2 ^ 32) :
    (Nat.testBit c 23 = true → map_old_to_new c = Except.ok c)
    ∧ (Nat.testBit c 23 = false →
        ((map_old_to_new c = Except.error DecodeError.UnknownLegacyCode ↔
            old_revision_map.length ≤ c ∨
              old_revision_map.getD c OLD_REV_NOT_VALID = OLD_REV_NOT_VALID)
          ∧ (c < old_revision_map.length →
              old_revision_map.getD c OLD_REV_NOT_VALID ≠ OLD_REV_NOT_VALID →
                map_old_to_new c =
                  Except.ok (old_revision_map.getD c OLD_REV_NOT_VALID)))) := by
  have hchar : revision_new_style c = false →
      map_old_to_new c =
        if (if c < old_revision_map.length then
              old_revision_map.getD c OLD_REV_NOT_VALID
            else OLD_REV_NOT_VALID) = OLD_REV_NOT_VALID then
          Except.error DecodeError.UnknownLegacyCode
        else
          Except.ok (if c < old_revision_map.length then
              old_revision_map.getD c OLD_REV_NOT_VALID
            else OLD_REV_NOT_VALID) := by
    intro hs
    simp only [map_old_to_new]
    rw [if_neg (by simp [hs])]
  constructor
  · intro ht
    have hs : revision_new_style c = true := by
      rw [revision_new_style_eq_testBit, ht]
    simp only [map_old_to_new]
    rw [if_pos (by simp [hs])]
  · intro ht
    have hs : revision_new_style c = false := by
      rw [revision_new_style_eq_testBit, ht]
    by_cases hlt : c < old_revision_map.length
    · by_cases hsen :
        old_revision_map.getD c OLD_REV_NOT_VALID = OLD_REV_NOT_VALID
      · refine ⟨⟨fun _ => Or.inr hsen, fun _ => ?_⟩,
          fun _ hne => absurd hsen hne⟩
        rw [hchar hs, if_pos hlt, if_pos hsen]
      · have hok : map_old_to_new c =
            Except.ok (old_revision_map.getD c OLD_REV_NOT_VALID) := by
          rw [hchar hs, if_pos hlt, if_neg hsen]
        refine ⟨⟨fun h => ?_, fun h => ?_⟩, fun _ _ => hok⟩
        · rw [hok] at h
          exact absurd h (by simp)
        · rcases h with h | h
          · omega
          · exact absurd h hsen
    · have hle : old_revision_map.length ≤ c := Nat.not_lt.mp hlt
      refine ⟨⟨fun _ => Or.inl hle, fun _ => ?_⟩, fun h2 => absurd h2 hlt⟩
      rw [hchar hs, if_neg hlt, if_pos rfl]

/-- Witness for C1: the legacy code 0x0003 has bit 23 clear, is within the
table bounds, is not the sentinel, and maps to its table entry. -/
theorem map_old_to_new_contract_witness :
    map_old_to_new 3 = Except.ok (old_revision_map.getD 3 OLD_REV_NOT_VALID) :=
  ((map_old_to_new_contract 3 (by norm_num)).2 (by decide)).2
    (by decide) (by decide)

/-- C2: the three-tier resolution policy of `lut_to_str_with_invalid` — the
table entry when in bounds, the substitute string at the declared reserved
index, and "???" otherwise — together with the concrete reserved-index
facts for the manufacturer and hardware-revision tables. -/
theorem resolve_policy_contract :
    (∀ (lut : List String) (index inv : Nat) (os : Option String),
      (index < lut.length →
        lut_to_str_with_invalid lut index inv os = lut.getD index "???")
      ∧ (lut.length ≤ index → index = inv →
          ∀ s, os = some s → lut_to_str_with_invalid lut index inv os = s)
      ∧ (lut.length ≤ index → (os = none ∨ index ≠ inv) →
          lut_to_str_with_invalid lut index inv os = "???"))
    ∧ lut_to_str_with_invalid manufacturer_map 15 15 (some "Qisda") = "Qisda"
    ∧ lut_to_str_with_invalid revision_map 15 15 (some "2.0") = "2.0"
    ∧ (∀ index, manufacturer_map.length ≤ index → index ≠ 15 →
        lut_to_str_with_invalid manufacturer_map index 15 (some "Qisda")
          = "???")
    ∧ (∀ index, revision_map.length ≤ index → index ≠ 15 →
        lut_to_str_with_invalid revision_map index 15 (some "2.0") = "???") := by
  refine ⟨fun lut index inv os => ⟨?_, ?_, ?_⟩, by decide, by decide, ?_, ?_⟩
  · intro h
    unfold lut_to_str_with_invalid
    rw [if_pos h]
  · intro h heq s hos
    subst hos
    subst heq
    unfold lut_to_str_with_invalid
    rw [if_neg (Nat.not_lt.mpr h)]
    simp
  · intro h hcase
    unfold lut_to_str_with_invalid
    rw [if_neg (Nat.not_lt.mpr h)]
    rcases hcase with hos | hne
    · subst hos
      rfl
    · cases os with
      | none => rfl
      | some s => simp [hne]
  · intro index h hne
    unfold lut_to_str_with_invalid
    rw [if_neg (Nat.not_lt.mpr h)]
    simp [hne]
  · intro index h hne
    unfold lut_to_str_with_invalid
    rw [if_neg (Nat.not_lt.mpr h)]
    simp [hne]

/-- Witness for C2: the in-bounds, reserved-index and generic-fallback tiers
at concrete inputs on the manufacturer table. -/
theorem resolve_policy_contract_witness :
    lut_to_str_with_invalid manufacturer_map 3 15 (some "Qisda")
        = manufacturer_map.getD 3 "???"
    ∧ lut_to_str_with_invalid manufacturer_map 15 15 (some "Qisda") = "Qisda"
    ∧ lut_to_str_with_invalid manufacturer_map 7 15 (some "Qisda") = "???" :=
  ⟨(resolve_policy_contract.1 manufacturer_map 3 15 (some "Qisda")).1
      (by decide),
   (resolve_policy_contract.1 manufacturer_map 15 15 (some "Qisda")).2.1
      (by decide) (by decide) "Qisda" rfl,
   (resolve_policy_contract.1 manufacturer_map 7 15 (some "Qisda")).2.2
      (by decide) (Or.inr (by decide))⟩

/-- C3: when the 3-bit memory index equals 6 (the table length), the guard
`index > length` of `physical_memory_mbytes` does not fire although the
index is past the last defined entry, so the table read is out of bounds
(`none` in the embedding); every other index value is in bounds or caught
by the guard. -/
theorem memory_bounds_check_off_by_one (c : Nat) :
    (physical_memory_index c = 6 →
        ¬ mem_mbytes_map.length < physical_memory_index c
        ∧ mem_mbytes_map.length ≤ physical_memory_index c
        ∧ physical_memory_mbytes c = none)
    ∧ (physical_memory_index c ≠ 6 →
        physical_memory_index c < mem_mbytes_map.length
        ∨ mem_mbytes_map.length < physical_memory_index c) := by
  have h8 := physical_memory_index_lt_eight c
  constructor
  · intro h6
    refine ⟨by simp [h6, mem_mbytes_map], by simp [h6, mem_mbytes_map], ?_⟩
    simp [physical_memory_mbytes, h6, mem_mbytes_map]
  · intro hne
    simp only [mem_mbytes_map, List.length]
    omega

/-- Witness for C3: the code 0x00600000 has memory index 6 and its table
read is out of bounds. -/
theorem memory_bounds_check_off_by_one_witness :
    ¬ mem_mbytes_map.length < physical_memory_index 0x600000
    ∧ mem_mbytes_map.length ≤ physical_memory_index 0x600000
    ∧ physical_memory_mbytes 0x600000 = none :=
  (memory_bounds_check_off_by_one 0x600000).1 (by decide)

/-- C4: `physical_memory_mbytes` over all eight memory-index values — the
six defined table entries for indices 0 to 5, and 0 for index 7 via the
guard; at index 6 however the source reads past the table (modelled as
`none`) instead of returning 0 as the spec requires. -/
theorem physical_memory_mbytes_at_boundary :
    physical_memory_mbytes 0x000000 = some 256
    ∧ physical_memory_mbytes 0x100000 = some 512
    ∧ physical_memory_mbytes 0x200000 = some 1024
    ∧ physical_memory_mbytes 0x300000 = some 2048
    ∧ physical_memory_mbytes 0x400000 = some 4096
    ∧ physical_memory_mbytes 0x500000 = some 8192
    ∧ physical_memory_index 0x600000 = 6
    ∧ physical_memory_mbytes 0x600000 = none
    ∧ physical_memory_mbytes 0x700000 = some 0 := by
  decide

/-- C5: `format_memory` agrees everywhere with the spec formatting rule
(GB by truncating division by 1024 when at least 1024 MB and at most four GB
digits, the empty string above that, MB below), and the boundary instances:
memory index 5 gives 8192 MB rendered "8GB", index 1 gives 512 MB rendered
"512MB". -/
theorem format_memory_rule :
    (∀ m : Nat, format_memory m = format_memory_spec m)
    ∧ format_memory 8192 = "8GB"
    ∧ format_memory 512 = "512MB"
    ∧ physical_memory_str 0x500000 = some "8GB"
    ∧ physical_memory_str 0x100000 = some "512MB" := by
  refine ⟨?_, by decide, by decide, by decide, by decide⟩
  intro m
  unfold format_memory format_memory_spec
  rw [Nat.shiftRight_eq_div_pow]

/-- C6: each 1-bit permission accessor is true exactly when its bit is 0
(inverted polarity), and the string accessors render accordingly. -/
theorem flag_polarity (c : Nat) :
    (overvoltage_allowed c = true ↔ c / 2 ^ 31 % 2 = 0)
    ∧ (otp_programming_allowed c = true ↔ c / 2 ^ 30 % 2 = 0)
    ∧ (otp_reading_allowed c = true ↔ c / 2 ^ 29 % 2 = 0)
    ∧ (warranty_intact c = true ↔ c / 2 ^ 25 % 2 = 0)
    ∧ overvoltage_allowed_str c
        = (if c / 2 ^ 31 % 2 = 0 then "Allowed" else "Disallowed")
    ∧ otp_programming_allowed_str c
        = (if c / 2 ^ 30 % 2 = 0 then "Allowed" else "Disallowed")
    ∧ otp_reading_allowed_str c
        = (if c / 2 ^ 29 % 2 = 0 then "Allowed" else "Disallowed")
    ∧ warranty_intact_str c
        = (if c / 2 ^ 25 % 2 = 0 then "Intact" else "Voided") := by
  have hov : overvoltage_allowed c = decide (c / 2 ^ 31 % 2 = 0) := by
    rw [overvoltage_allowed, and_one_beq_zero, Nat.shiftRight_eq_div_pow]
  have hop : otp_programming_allowed c = decide (c / 2 ^ 30 % 2 = 0) := by
    rw [otp_programming_allowed, and_one_beq_zero, Nat.shiftRight_eq_div_pow]
  have hor : otp_reading_allowed c = decide (c / 2 ^ 29 % 2 = 0) := by
    rw [otp_reading_allowed, and_one_beq_zero, Nat.shiftRight_eq_div_pow]
  have hw : warranty_intact c = decide (c / 2 ^ 25 % 2 = 0) := by
    rw [warranty_intact, and_one_beq_zero, Nat.shiftRight_eq_div_pow]
  refine ⟨by simp [hov], by simp [hop], by simp [hor], by simp [hw],
    ?_, ?_, ?_, ?_⟩
  · by_cases h : c / 2 ^ 31 % 2 = 0 <;>
      simp [overvoltage_allowed_str, hov, h]
  · by_cases h : c / 2 ^ 30 % 2 = 0 <;>
      simp [otp_programming_allowed_str, hop, h]
  · by_cases h : c / 2 ^ 29 % 2 = 0 <;>
      simp [otp_reading_allowed_str, hor, h]
  · by_cases h : c / 2 ^ 25 % 2 = 0 <;>
      simp [warranty_intact_str, hw, h]

/-- Counterexample for C7: the legacy mapping table does not have 19
populated slots. -/
theorem old_revision_map_not_nineteen :
    ¬ old_revision_map.countP (fun e => e != OLD_REV_NOT_VALID) = 19 := by
  decide

/-- C7 (amended): the legacy mapping table has exactly 17 populated slots;
its sentinel slots are exactly the indices 0, 1, 10, 11, 12; `map_old_to_new`
succeeds with the table entry on every populated index and fails with
`UnknownLegacyCode` on each of 0, 1, 10, 11, 12. -/
theorem old_revision_map_population :
    old_revision_map.countP (fun e => e != OLD_REV_NOT_VALID) = 17
    ∧ (∀ i < old_revision_map.length,
        (old_revision_map.getD i 0 = OLD_REV_NOT_VALID ↔
          i = 0 ∨ i = 1 ∨ i = 10 ∨ i = 11 ∨ i = 12))
    ∧ (∀ i < old_revision_map.length,
        old_revision_map.getD i 0 ≠ OLD_REV_NOT_VALID →
          map_old_to_new i = Except.ok (old_revision_map.getD i 0))
    ∧ map_old_to_new 0 = Except.error DecodeError.UnknownLegacyCode
    ∧ map_old_to_new 1 = Except.error DecodeError.UnknownLegacyCode
    ∧ map_old_to_new 10 = Except.error DecodeError.UnknownLegacyCode
    ∧ map_old_to_new 11 = Except.error DecodeError.UnknownLegacyCode
    ∧ map_old_to_new 12 = Except.error DecodeError.UnknownLegacyCode := by
  decide

/-- Witness for C7: the populated index 2 succeeds with its table entry, and
index 10 is a sentinel slot. -/
theorem old_revision_map_population_witness :
    map_old_to_new 2 = Except.ok (old_revision_map.getD 2 0)
    ∧ (old_revision_map.getD 10 0 = OLD_REV_NOT_VALID ↔
        10 = 0 ∨ 10 = 1 ∨ 10 = 10 ∨ 10 = 11 ∨ 10 = 12) :=
  ⟨old_revision_map_population.2.2.1 2 (by decide) (by decide),
   old_revision_map_population.2.1 10 (by decide)⟩

/-- Counterexample for C8: decoding 0x00A02082 does not give processor
index 0. -/
theorem scenario_B_processor_index_ne_zero :
    processor_index 0x00A02082 ≠ 0 := by
  decide

/-- C8 (amended): decoding 0x00A02082 yields style new, type index 0x08
resolving to "3B", memory index 2 resolving to "1GB", processor index 2
resolving to "BCM2837", manufacturer index 0, and all permission flags
derived from their bits (all zero here, hence all true). -/
theorem decode_scenario_B :
    type_index 0x00A02082 = 0x08
    ∧ physical_memory_index 0x00A02082 = 2
    ∧ processor_index 0x00A02082 = 2
    ∧ manufacturer_index 0x00A02082 = 0
    ∧ decode 0x00A02082 = Except.ok
        { style := "new"
          overvoltage_allowed := some true
          otp_programming_allowed := some true
          otp_reading_allowed := some true
          warranty_intact := some true
          type := "3B"
          revision := "1.2"
          processor := some "BCM2837"
          memory := some "1GB"
          manufacturer := "Sony UK" } := by
  decide

/-- C9: decoding the legacy code 0x0002 yields style old, type "B",
hardware revision "1.0", memory "256MB" and manufacturer "Egoman", with the
four permission fields and the processor field absent. -/
theorem decode_scenario_A :
    decode 0x0002 = Except.ok
        { style := "old"
          overvoltage_allowed := none
          otp_programming_allowed := none
          otp_reading_allowed := none
          warranty_intact := none
          type := "B"
          revision := "1.0"
          processor := none
          memory := some "256MB"
          manufacturer := "Egoman" } := by
  decide

/-- C10: every populated entry of the legacy mapping table has the
new-style bit clear, so a decoded legacy code reports style old, and
`map_old_to_new` applied to such an entry never returns it unchanged. -/
theorem legacy_entries_stay_old_style :
    ∀ i < old_revision_map.length,
      old_revision_map.getD i 0 ≠ OLD_REV_NOT_VALID →
        revision_new_style (old_revision_map.getD i 0) = false
        ∧ map_old_to_new (old_revision_map.getD i 0) ≠
            Except.ok (old_revision_map.getD i 0)
        ∧ (Except.toOption (decode i)).map DecodedResult.style = some "old" := by
  decide

/-- Witness for C10: the populated index 2, whose entry keeps the new-style
bit clear and decodes to style old. -/
theorem legacy_entries_stay_old_style_witness :
    revision_new_style (old_revision_map.getD 2 0) = false
    ∧ map_old_to_new (old_revision_map.getD 2 0) ≠
        Except.ok (old_revision_map.getD 2 0)
    ∧ (Except.toOption (decode 2)).map DecodedResult.style = some "old" :=
  legacy_entries_stay_old_style 2 (by decide) (by decide)

end PiRevision
